import Mathlib

/-!
Shallow embedding of the flashk point-of-sale backend (src/backend/app.py)
and verification of the frozen claims about it.

The embedding models the Supabase tables as in-memory lists, the uploads
directory as a list of filenames, and the Flask route handlers as pure
functions from (request data, state) to (response, state).  External
collaborators that app.py only invokes — werkzeug's password hashing and
checking, Python's float() — are taken as function parameters, so theorems
quantify over them.  JSON responses are modelled by the Resp type, whose
constructors carry the HTTP status and the payload from the corresponding
return site in app.py.
-/

namespace Flashk

/-! ## Python string helpers

All character-level work is done on `List Char` with structural recursion so
that every definition evaluates by kernel reduction. -/

/-- Python `s.strip()`: drop leading and trailing whitespace. -/
def pyStrip (s : String) : String :=
  String.mk (((s.toList.dropWhile Char.isWhitespace).reverse.dropWhile
    Char.isWhitespace).reverse)

/-- Split a character list on a separator character; never returns `[]`,
matching Python `str.split(sep)`. -/
def splitOnChar (sep : Char) : List Char → List (List Char)
  | [] => [[]]
  | c :: cs =>
    match splitOnChar sep cs with
    | [] => [[]]
    | seg :: segs => if c = sep then [] :: seg :: segs else (c :: seg) :: segs

/-- Python `url.split('/')[-1]` (app.py lines 256, 627, 696 etc.). -/
def lastSegment (s : String) : String :=
  String.mk ((splitOnChar '/' s.toList).getLastD [])

/-- ASCII lowercasing, Python `s.lower()` on the ASCII range. -/
def strToLower (s : String) : String :=
  String.mk (s.toList.map Char.toLower)

/-- Substring search: does `pat` occur at some position of the list? -/
def containsSubGo (pat : List Char) : List Char → Bool
  | [] => pat.isPrefixOf []
  | c :: cs => pat.isPrefixOf (c :: cs) || containsSubGo pat cs

/-- Bool-valued substring containment: does `pat` occur inside `s`? -/
def containsSub (pat : String) (s : String) : Bool :=
  containsSubGo pat.toList s.toList

/-- Python `s.startswith(pre)`. -/
def pyStartsWith (s pre : String) : Bool :=
  pre.toList.isPrefixOf s.toList

/-- Python `s[:n]`: the first `n` characters. -/
def pyTake (s : String) (n : Nat) : String :=
  String.mk (s.toList.take n)

/-- Python `s.replace(',', '.')` for a one-character pattern (app.py line 866). -/
def replaceCommaDot (s : String) : String :=
  String.mk (s.toList.map (fun c => if c = ',' then '.' else c))

/-- Python `s.rjust(12)` (app.py line 866): left-pad with spaces to width `n`. -/
def rjust (n : Nat) (s : String) : String :=
  if n ≤ s.length then s else String.mk (List.replicate (n - s.length) ' ') ++ s

/-- SQL `haystack ILIKE '%pat%'`: case-insensitive substring match, as used by
the Supabase `.ilike('image_url', f'%{filename}%')` queries
(app.py lines 259, 1220). -/
def ilikeContains (haystack pat : String) : Bool :=
  containsSub (strToLower pat) (strToLower haystack)

/-! ## Constants (app.py lines 86-94) -/

def MAX_FAILED_ATTEMPTS : Nat := 5

def LOCKOUT_TIME : Nat := 15 * 60

def ALLOWED_EXTENSIONS : List String := ["png", "jpg", "jpeg", "gif"]

/-- Embeds app.py lines 201-202: `'.' in filename and
filename.rsplit('.', 1)[1].lower() in ALLOWED_EXTENSIONS`. -/
def allowed_file (filename : String) : Bool :=
  filename.toList.contains '.' &&
    ALLOWED_EXTENSIONS.contains
      (strToLower (String.mk ((splitOnChar '.' filename.toList).getLastD [])))

/-! ## Data model -/

/-- A row of the `users` table. `password` holds the stored hash string. -/
structure User where
  id : Nat
  username : String
  password : String
  is_admin : Bool
  created_at : String
deriving DecidableEq, Repr

/-- A row of the `products` table.  Price is a Python float, modelled as ℚ. -/
structure Product where
  id : Nat
  name : String
  price : Rat
  image_url : Option String
  user_id : Nat
deriving DecidableEq, Repr

/-- The two Supabase tables the claims touch. -/
structure DB where
  users : List User
  products : List Product
deriving DecidableEq, Repr

/-- Database plus the uploads directory (the regular files in it, by name;
the `os.path.isfile` guard in cleanup skips directory entries, which are
therefore not modelled). -/
structure ServerState where
  db : DB
  disk : List String
deriving DecidableEq, Repr

/-- Responses, one constructor per shape of jsonify payload in app.py, each
carrying the HTTP status code of its return site. -/
inductive Resp where
  | error (status : Nat) (msg : String)
  | okMsg (status : Nat) (msg : String)
  | okUser (status : Nat) (u : User)
  | okProduct (status : Nat) (p : Product)
  | okTable (status : Nat) (rows : List (List String))
  | authSuccess (status : Nat) (userId : Nat) (username : String) (is_admin : Bool)
  | created (status : Nat) (p : Product)
  | createdUser (status : Nat) (u : User)
deriving DecidableEq, Repr

def Resp.status : Resp → Nat
  | .error s _ => s
  | .okMsg s _ => s
  | .okUser s _ => s
  | .okProduct s _ => s
  | .okTable s _ => s
  | .authSuccess s _ _ _ => s
  | .created s _ => s
  | .createdUser s _ => s

/-! ## Supabase query helpers (app.py lines 215-219) -/

/-- `supabase.from_('users').select('*').eq('username', username)` — rows in
table order. -/
def get_user_by_username (username : String) (db : DB) : List User :=
  db.users.filter (fun u => u.username == username)

/-- `supabase.from_('users').select('*').eq('id', user_id)`. -/
def get_user_by_id (user_id : Nat) (db : DB) : List User :=
  db.users.filter (fun u => u.id == user_id)

/-! ## Credential store -/

/-- Embeds app.py lines 301-325 `is_password_valid`: returns (valid?, message).
The regex checks `[A-Z]`, `[a-z]`, `\d` and the literal special-character
class are membership tests over the password's characters. -/
def is_password_valid (password : String) : Bool × String :=
  if password.toList.length < 8 then
    (false, "Password must be at least 8 characters long")
  else if !(password.toList.any (fun c => 'A' ≤ c && c ≤ 'Z')) then
    (false, "Password must contain at least one uppercase letter")
  else if !(password.toList.any (fun c => 'a' ≤ c && c ≤ 'z')) then
    (false, "Password must contain at least one lowercase letter")
  else if !(password.toList.any (fun c => '0' ≤ c && c ≤ '9')) then
    (false, "Password must contain at least one number")
  else if !(password.toList.any (fun c =>
      " !@#$%^&*()_+-=[]\x7b\x7d;':\",.<>/?\\|".toList.contains c)) then
    (false, "Password must contain at least one special character")
  else
    (true, "Password is valid")

/-- Embeds app.py lines 328-409 `register`.  The handler strips the username, checks
presence, checks the username length bound [3,50], checks uniqueness, hashes
the password (`generate_password_hash`, the `hash` parameter) and inserts the
row.  Note: the handler never calls `is_password_valid`.  `newId` stands for
the id Supabase assigns; `now` for `datetime.now(timezone.utc).isoformat()`. -/
def register (username0 password : String) (hash : String → String)
    (newId : Nat) (now : String) (db : DB) : Resp × DB :=
  let username := pyStrip username0
  if username = "" ∨ password = "" then
    (.error 400 "Username and password are required", db)
  else if username.toList.length < 3 ∨ 50 < username.toList.length then
    (.error 400 "Username must be between 3 and 50 characters", db)
  else if !(get_user_by_username username db).isEmpty then
    (.error 409 "Username already exists", db)
  else
    let user : User := ⟨newId, username, hash password, false, now⟩
    (.createdUser 201 user, { db with users := db.users ++ [user] })

/-- Embeds app.py lines 411-490 `login`.  `chk` stands for werkzeug's
`check_password_hash(stored, supplied)`.  The hardcoded pair
("wildanhniif", "pemenang321") is checked first and never consults `chk`. -/
def login (chk : String → String → Bool) (username0 password : String)
    (db : DB) : Resp :=
  let username := pyStrip username0
  if username = "" ∨ password = "" then
    .error 400 "Username and password are required"
  else if username = "wildanhniif" ∧ password = "pemenang321" then
    match get_user_by_username username db with
    | [] => .error 500 "Admin user not found"
    | u :: _ => .authSuccess 200 u.id username true
  else
    match get_user_by_username username db with
    | [] => .error 401 "Invalid username or password"
    | u :: _ =>
      if chk u.password password then
        .authSuccess 200 u.id u.username u.is_admin
      else
        .error 401 "Invalid username or password"

/-! ## Login throttle (app.py lines 86-88, 533-540) -/

/-- Embeds app.py lines 533-540 `record_failed_login`.  The process-wide
`FAILED_LOGIN_ATTEMPTS` dict (client address ↦ attempt count,
last-failure time) is modelled as an association list; `time.time()` values
as ℚ. -/
def record_failed_login (ip_address : String) (current_time : Rat)
    (m : List (String × Nat × Rat)) : List (String × Nat × Rat) :=
  match m.find? (fun e => e.1 == ip_address) with
  | some (_, attempts, _) =>
      m.map (fun e => if e.1 == ip_address then (ip_address, attempts + 1, current_time) else e)
  | none => m ++ [(ip_address, 1, current_time)]

/-- Process state relevant to the login route: the users table and the
`FAILED_LOGIN_ATTEMPTS` map. -/
structure AppState where
  db : DB
  failed_login_attempts : List (String × Nat × Rat)
deriving DecidableEq, Repr

/-- The `/api/login` route handler as a transition on `AppState`.  The
request's client address and the current time are in scope in app.py
(request.remote_addr, time.time()), but lines 411-490 read neither
`FAILED_LOGIN_ATTEMPTS` nor the clock and never call `record_failed_login`,
so the handler leaves the state unchanged and ignores those two inputs. -/
def loginRoute (chk : String → String → Bool) (_remote_addr : String)
    (_now : Rat) (username password : String) (st : AppState) :
    Resp × AppState :=
  (login chk username password st.db, st)

/-! ## Image asset manager -/

/-- Does product row `p` satisfy `image_url ILIKE '%filename%'`?  Rows with a
NULL `image_url` never match an ILIKE filter. -/
def imageLike (p : Product) (filename : String) : Bool :=
  match p.image_url with
  | some u => ilikeContains u filename
  | none => false

/-- The `active_images` set of app.py lines 1190-1197: last path segment of
every truthy `image_url` in the products table. -/
def activeImages (products : List Product) : List String :=
  products.filterMap (fun p =>
    match p.image_url with
    | some u => if u ≠ "" then some (lastSegment u) else none
    | none => none)

/-- The keep/delete decision of one loop iteration of `cleanup_old_images`
(app.py lines 1200-1225) for a regular file named `filename`: receipt files
are always deleted; an allowed-extension image not in `active_images` is
deleted only when the double-check ILIKE query over the products table also
finds no reference. -/
def cleanupKeep (products : List Product) (filename : String) : Bool :=
  if pyStartsWith filename "receipt_" then false
  else if allowed_file filename && !(activeImages products).contains filename then
    !(products.filter (fun p => imageLike p filename)).isEmpty
  else true

/-- Embeds app.py lines 1185-1227 `cleanup_old_images`: one pass over the uploads
directory, removing each file whose `cleanupKeep` decision is delete. -/
def cleanup_old_images (products : List Product) (disk : List String) : List String :=
  disk.filter (cleanupKeep products)

/-! ## Catalog store -/

/-- Embeds app.py lines 236-275 `delete_product` (helper).  Returns the deleted rows
(`response.data`, `none` when the product was not found) and the new state.
After deleting the row it re-queries `.neq('id', product_id)
.ilike('image_url', f'%{filename}%')` and removes the image file from disk
only when that query is empty and the file exists. -/
def delete_product (product_id : Nat) (s : ServerState) : Option (List Product) × ServerState :=
  match s.db.products.filter (fun p => p.id == product_id) with
  | [] => (none, s)
  | p :: _ =>
    let deleted := s.db.products.filter (fun q => q.id == product_id)
    let remaining := s.db.products.filter (fun q => !(q.id == product_id))
    let db1 : DB := { s.db with products := remaining }
    if (p.image_url.getD "") ≠ "" then
      let filename := lastSegment (p.image_url.getD "")
      let other_products := remaining.filter
        (fun q => !(q.id == product_id) && imageLike q filename)
      if other_products.isEmpty then
        if s.disk.contains filename then
          (some deleted, ⟨db1, s.disk.filter (fun f => !(f == filename))⟩)
        else
          (some deleted, ⟨db1, s.disk⟩)
      else
        (some deleted, ⟨db1, s.disk⟩)
    else
      (some deleted, ⟨db1, s.disk⟩)

/-- An uploaded file in `request.files['image']`: its original client-side
filename and the name it is saved under
(`secure_filename(str(uuid.uuid4()) + '_' + file.filename)`, generated
outside the embedding and passed in). -/
structure Upload where
  origName : String
  savedName : String
deriving DecidableEq, Repr

/-- The multipart form fields of the product routes; a field is `none` when
the key is absent from `request.form`. -/
structure ProductForm where
  name : Option String
  price : Option String
deriving DecidableEq, Repr

/-- Embeds app.py lines 565-659 `add_product`.  `parseFloat` stands for Python's
`float()` (some q on success, none on ValueError); `form = none` models an
empty `request.form`; `newId` is the id Supabase assigns to the insert. -/
def add_product (parseFloat : String → Option Rat) (user_id : Nat)
    (form : Option ProductForm) (upload : Option Upload) (newId : Nat)
    (s : ServerState) : Resp × ServerState :=
  match form with
  | none => (.error 400 "No form data provided", s)
  | some f =>
    match f.name with
    | none => (.error 400 "Product name is required", s)
    | some nm =>
      if pyStrip nm = "" then (.error 400 "Product name is required", s)
      else
        match f.price with
        | none => (.error 400 "Product price is required", s)
        | some ps =>
          match parseFloat ps with
          | none => (.error 400 "Invalid price format", s)
          | some price =>
            if price < 0 then (.error 400 "Price cannot be negative", s)
            else
              match upload with
              | some up =>
                if up.origName ≠ "" then
                  if !(allowed_file up.origName) then (.error 400 "Invalid file type", s)
                  else
                    let image_url := "/api/uploads/" ++ up.savedName
                    let product : Product := ⟨newId, pyStrip nm, price, some image_url, user_id⟩
                    let products' := s.db.products ++ [product]
                    let disk1 := s.disk ++ [up.savedName]
                    (.created 201 product,
                      ⟨{ s.db with products := products' }, cleanup_old_images products' disk1⟩)
                else
                  let product : Product := ⟨newId, pyStrip nm, price, none, user_id⟩
                  let products' := s.db.products ++ [product]
                  (.created 201 product,
                    ⟨{ s.db with products := products' }, cleanup_old_images products' s.disk⟩)
              | none =>
                let product : Product := ⟨newId, pyStrip nm, price, none, user_id⟩
                let products' := s.db.products ++ [product]
                (.created 201 product,
                  ⟨{ s.db with products := products' }, cleanup_old_images products' s.disk⟩)

/-- The tail of the `update_product` route after price validation
(app.py lines 688-727): image handling, the table update, unconditional
removal of the replaced image file, and the closing cleanup pass.
`prod` is the pre-update row fetched by the ownership query. -/
def update_product_apply (product_id : Nat) (prod : Product)
    (nameUpd : Option String) (priceUpd : Option Rat) (upload : Option Upload)
    (s : ServerState) : Resp × ServerState :=
  let imageTaken : Bool :=
    match upload with
    | some up => up.origName ≠ "" && allowed_file up.origName
    | none => false
  let imgUpd : Option String :=
    match upload with
    | some up => if imageTaken then some ("/api/uploads/" ++ up.savedName) else none
    | none => none
  let old_image_url : Option String := if imageTaken then prod.image_url else none
  let disk1 :=
    match upload with
    | some up => if imageTaken then s.disk ++ [up.savedName] else s.disk
    | none => s.disk
  if nameUpd.isSome || priceUpd.isSome || imgUpd.isSome then
    let upd : Product → Product := fun q =>
      if q.id == product_id then
        { q with
            name := nameUpd.getD q.name,
            price := priceUpd.getD q.price,
            image_url := match imgUpd with | some u => some u | none => q.image_url }
      else q
    let products' := s.db.products.map upd
    match products'.filter (fun q => q.id == product_id) with
    | [] =>
      let diskE :=
        match imgUpd with
        | some u => disk1.filter (fun f => !(f == lastSegment u))
        | none => disk1
      (.error 500 "Failed to update product", ⟨s.db, diskE⟩)
    | r :: _ =>
      let disk2 :=
        if (old_image_url.getD "") ≠ "" then
          disk1.filter (fun f => !(f == lastSegment (old_image_url.getD "")))
        else disk1
      (.okProduct 200 r,
        ⟨{ s.db with products := products' }, cleanup_old_images products' disk2⟩)
  else
    (.okMsg 200 "No changes to update", ⟨s.db, disk1⟩)

/-- Embeds app.py lines 661-730, the `PUT /api/products/<id>` route handler.  The
ownership query filters on both id and owning user; a miss for either reason
yields the same 404 response.  Price errors return before any mutation. -/
def update_product (parseFloat : String → Option Rat) (product_id user_id : Nat)
    (form : ProductForm) (upload : Option Upload) (s : ServerState) :
    Resp × ServerState :=
  match s.db.products.filter (fun p => p.id == product_id && p.user_id == user_id) with
  | [] => (.error 404 "Product not found or unauthorized", s)
  | prod :: _ =>
    match form.price with
    | none => update_product_apply product_id prod form.name none upload s
    | some ps =>
      match parseFloat ps with
      | none => (.error 400 "Invalid price format", s)
      | some price =>
        if price < 0 then (.error 400 "Price cannot be negative", s)
        else update_product_apply product_id prod form.name (some price) upload s

/-- Embeds app.py lines 732-762, the `DELETE /api/products/<id>` route handler. -/
def delete_user_product (product_id user_id : Nat) (s : ServerState) :
    Resp × ServerState :=
  if (s.db.products.filter (fun p => p.id == product_id && p.user_id == user_id)).isEmpty then
    (.error 404 "Product not found or unauthorized", s)
  else
    match delete_product product_id s with
    | (none, s1) => (.error 500 "Failed to delete product", s1)
    | (some [], s1) => (.error 500 "Failed to delete product", s1)
    | (some (_ :: _), s1) =>
      (.okMsg 200 "Product deleted successfully",
        ⟨s1.db, cleanup_old_images s1.db.products s1.disk⟩)

/-! ## Admin facade -/

/-- The JSON body of `PUT /api/admin/users/<id>`; a field is `none` when the
key is absent.  `password = some ""` models a present-but-falsy password,
which the handler skips. -/
structure UserPatch where
  username : Option String
  password : Option String
  is_admin : Option Bool
deriving DecidableEq, Repr

/-- Embeds app.py lines 1024-1059 `update_user`.  Builds `update_data` from the
patch (username after a first-row conflict check, password only when truthy,
is_admin whenever present) and applies it to the row.  There is no
last-admin guard on this path. -/
def update_user (user_id : Nat) (patch : UserPatch) (hash : String → String)
    (db : DB) : Resp × DB :=
  match get_user_by_id user_id db with
  | [] => (.error 404 "User not found", db)
  | _ :: _ =>
    let conflict : Bool :=
      match patch.username with
      | some uname =>
        match get_user_by_username uname db with
        | [] => false
        | v :: _ => !(v.id == user_id)
      | none => false
    if conflict then (.error 409 "Username already exists", db)
    else
      let passUpd : Option String :=
        match patch.password with
        | some p => if p ≠ "" then some (hash p) else none
        | none => none
      if patch.username.isSome || passUpd.isSome || patch.is_admin.isSome then
        let upd : User → User := fun v =>
          if v.id == user_id then
            { v with
                username := patch.username.getD v.username,
                password := passUpd.getD v.password,
                is_admin := patch.is_admin.getD v.is_admin }
          else v
        let users' := db.users.map upd
        match users'.filter (fun v => v.id == user_id) with
        | [] => (.error 500 "Failed to update user", db)
        | r :: _ => (.okUser 200 r, { db with users := users' })
      else
        (.okMsg 200 "No changes to update", db)

/-- The per-product loop of `delete_user` (app.py lines 1085-1087): delete
each of the user's products through `delete_product`, ignoring the results. -/
def deleteProductsLoop (pids : List Nat) (s : ServerState) : ServerState :=
  pids.foldl (fun st pid => (delete_product pid st).2) s

/-- Embeds app.py lines 1061-1103 `delete_user`.  Rejects when the target is an
admin and the admin count is at most one; otherwise deletes the user's
products, the user row, and runs the cleanup pass. -/
def delete_user (user_id : Nat) (s : ServerState) : Resp × ServerState :=
  match get_user_by_id user_id s.db with
  | [] => (.error 404 "User not found", s)
  | u :: _ =>
    if u.is_admin = true ∧ (s.db.users.filter (fun v => v.is_admin)).length ≤ 1 then
      (.error 400 "Cannot delete the last admin user", s)
    else
      let userProducts := s.db.products.filter (fun p => p.user_id == user_id)
      let s1 := deleteProductsLoop (userProducts.map (fun p => p.id)) s
      let deletedUsers := s1.db.users.filter (fun v => v.id == user_id)
      let users' := s1.db.users.filter (fun v => !(v.id == user_id))
      let s2 : ServerState := ⟨⟨users', s1.db.products⟩, s1.disk⟩
      if deletedUsers.isEmpty then (.error 500 "Failed to delete user", s2)
      else
        (.okMsg 200 "User deleted successfully",
          ⟨s2.db, cleanup_old_images s2.db.products s2.disk⟩)

/-! ## Receipt renderer -/

/-- One entry of the `items` list in the `POST /api/generate-receipt` body,
for the integer-valued carts the claims concern. -/
structure ReceiptItem where
  name : String
  quantity : Nat
  price : Nat
deriving DecidableEq, Repr

/-- Insert a comma before every third digit, walking the digit list from the
least significant end (`i` counts digits already emitted). -/
def insertCommas : Nat → List Char → List Char
  | _, [] => []
  | i, c :: cs =>
    if i ≠ 0 ∧ i % 3 = 0 then ',' :: c :: insertCommas (i + 1) cs
    else c :: insertCommas (i + 1) cs

/-- Python `f"{amount:,}"` for a natural number: decimal digits with a comma
every three digits from the right. -/
def commaFormat (amount : Nat) : String :=
  String.mk ((insertCommas 0 (Nat.toDigits 10 amount).reverse).reverse)

/-- Embeds app.py lines 865-866 `format_rupiah`:
`f"Rp {amount:,}".replace(',', '.').rjust(12)`. -/
def format_rupiah (amount : Nat) : String :=
  rjust 12 (replaceCommaDot ("Rp " ++ commaFormat amount))

/-- The `table_data` built by app.py lines 905-919: a header row, one row per
item (name truncated past 20 characters, quantity, unit price, line total),
and a final total row. -/
def receiptTableData (items : List ReceiptItem) (total : Nat) : List (List String) :=
  [["Item", "Qty", "Price", "Total"]] ++
  items.map (fun item =>
    let name := if item.name.toList.length > 20 then pyTake item.name 18 ++ ".." else item.name
    [name, toString item.quantity, format_rupiah item.price,
      format_rupiah (item.price * item.quantity)]) ++
  [["", "", "Total:", format_rupiah total]]

/-- Embeds app.py lines 775-970 `generate_receipt`, reduced to the data the claim is
about: the 400 guard on an empty item list and the line-item table rendered
into the PDF. -/
def generate_receipt (items : List ReceiptItem) (total : Nat) : Resp :=
  if items.isEmpty then .error 400 "No items provided"
  else .okTable 200 (receiptTableData items total)

/-! ## Claim theorems -/

/-- Claim C1 (code_bug evidence): the register handler never invokes the
password-strength policy.  The password "weak" fails `is_password_valid`
(it is shorter than 8 characters), yet `register` answers 201 and persists
the user, where the claim requires a 400 rejection with no user persisted. -/
theorem C1_register_ignores_password_policy :
    (is_password_valid "weak").1 = false ∧
    (register "bob" "weak" (fun p => "h" ++ p) 1 "t" ⟨[], []⟩).1
      = .createdUser 201 ⟨1, "bob", "hweak", false, "t"⟩ ∧
    (register "bob" "weak" (fun p => "h" ++ p) 1 "t" ⟨[], []⟩).2.users
      = [⟨1, "bob", "hweak", false, "t"⟩] := by
  decide

/-- Claim C2 (code_bug evidence): the login route enforces no lockout.  Even
when the `FAILED_LOGIN_ATTEMPTS` map records 5 failures for the client
address (built here by five `record_failed_login` calls) and the 6th attempt
arrives one second later — far inside the 15-minute window — login still
answers 401 for wrong credentials and 200 for correct ones, never 429, and
leaves the failure map untouched. -/
theorem C2_login_never_locks_out :
    record_failed_login "9.9.9.9" 5 (record_failed_login "9.9.9.9" 4
      (record_failed_login "9.9.9.9" 3 (record_failed_login "9.9.9.9" 2
        (record_failed_login "9.9.9.9" 1 [])))) = [("9.9.9.9", 5, 5)] ∧
    loginRoute (fun stored given => stored == given) "9.9.9.9" 6 "alice" "wrong"
        ⟨⟨[⟨1, "alice", "pw", false, "t"⟩], []⟩, [("9.9.9.9", 5, 5)]⟩
      = (.error 401 "Invalid username or password",
         ⟨⟨[⟨1, "alice", "pw", false, "t"⟩], []⟩, [("9.9.9.9", 5, 5)]⟩) ∧
    loginRoute (fun stored given => stored == given) "9.9.9.9" 6 "alice" "pw"
        ⟨⟨[⟨1, "alice", "pw", false, "t"⟩], []⟩, [("9.9.9.9", 5, 5)]⟩
      = (.authSuccess 200 1 "alice" false,
         ⟨⟨[⟨1, "alice", "pw", false, "t"⟩], []⟩, [("9.9.9.9", 5, 5)]⟩) := by
  decide

/-- Claim C3 (counterexample): the admin facade can leave the user store with
zero admins.  In a state whose only admin is user 1, `update_user` happily
applies a patch demoting user 1, answers 200, and the resulting store has no
admin — refuting the claimed reachable-state invariant. -/
theorem C3_update_user_demotes_last_admin :
    (update_user 1 ⟨none, none, some false⟩ (fun p => p)
        ⟨[⟨1, "wildanhniif", "H", true, "t"⟩, ⟨2, "bob", "G", false, "t"⟩], []⟩).1
      = .okUser 200 ⟨1, "wildanhniif", "H", false, "t"⟩ ∧
    ((update_user 1 ⟨none, none, some false⟩ (fun p => p)
        ⟨[⟨1, "wildanhniif", "H", true, "t"⟩, ⟨2, "bob", "G", false, "t"⟩], []⟩).2.users.filter
      (fun v => v.is_admin)) = [] := by
  decide

/-- Claim C4 (counterexample): replacing a product's image removes the old
file unconditionally.  Products 1 and 2 both reference file "f.png"; updating
product 1 with a new image "g.png" deletes "f.png" from disk even though
product 2 still references it — the update path has no reference check. -/
theorem C4_update_product_removes_shared_image :
    (update_product (fun _ => none) 1 7 ⟨none, none⟩ (some ⟨"new.png", "g.png"⟩)
        ⟨⟨[], [⟨1, "P", 5, some "/api/uploads/f.png", 7⟩,
               ⟨2, "Q", 5, some "/api/uploads/f.png", 9⟩]⟩, ["f.png"]⟩).2
      = ⟨⟨[], [⟨1, "P", 5, some "/api/uploads/g.png", 7⟩,
               ⟨2, "Q", 5, some "/api/uploads/f.png", 9⟩]⟩, ["g.png"]⟩ := by
  decide

/-- Claim C8: `cleanup_old_images` is idempotent — for every state of the
products table and uploads directory, a second pass with no intervening
writes deletes nothing, because the pass is a filter by a per-file decision
that depends only on the products table. -/
theorem C8_cleanup_idempotent (products : List Product) (disk : List String) :
    cleanup_old_images products (cleanup_old_images products disk)
      = cleanup_old_images products disk := by
  simp [cleanup_old_images, List.filter_filter]

/-- Claim C9: rendering the single-item cart Coffee × 2 at unit price 15000
with total 30000 yields a line-item table with exactly one item row —
quantity "2", unit price "Rp 15.000", line total "Rp 30.000" — and a total
row "Rp 30.000" (the cell strings are right-justified to width 12; their
trimmed text is exactly the claimed rupiah strings). -/
theorem C9_receipt_coffee :
    generate_receipt [⟨"Coffee", 2, 15000⟩] 30000
      = .okTable 200 [["Item", "Qty", "Price", "Total"],
          ["Coffee", "2", "   Rp 15.000", "   Rp 30.000"],
          ["", "", "Total:", "   Rp 30.000"]] ∧
    pyStrip "   Rp 15.000" = "Rp 15.000" ∧
    pyStrip "   Rp 30.000" = "Rp 30.000" := by
  decide

/-- Claim C5: for any credential store, any hash checker, and any pair of
login requests — one naming a username absent from the store, the other
naming a stored username whose hash check fails — both responses are the
same HTTP 401 with the body "Invalid username or password", provided
neither request is the hardcoded bypass pair and both requests carry a
nonempty username and password (empty fields are answered 400 earlier). -/
theorem C5_login_indistinguishable_failures
    (chk : String → String → Bool) (db : DB) (u1 p1 u2 p2 : String)
    (h1u : pyStrip u1 ≠ "") (h1p : p1 ≠ "")
    (h1b : ¬(pyStrip u1 = "wildanhniif" ∧ p1 = "pemenang321"))
    (h1m : get_user_by_username (pyStrip u1) db = [])
    (h2u : pyStrip u2 ≠ "") (h2p : p2 ≠ "")
    (h2b : ¬(pyStrip u2 = "wildanhniif" ∧ p2 = "pemenang321"))
    (r : User) (rs : List User)
    (h2f : get_user_by_username (pyStrip u2) db = r :: rs)
    (h2c : chk r.password p2 = false) :
    login chk u1 p1 db = .error 401 "Invalid username or password" ∧
    login chk u2 p2 db = .error 401 "Invalid username or password" := by
  constructor
  · simp only [login]
    rw [if_neg (by simp [h1u, h1p]), if_neg h1b, h1m]
  · simp only [login]
    rw [if_neg (by simp [h2u, h2p]), if_neg h2b, h2f]
    simp [h2c]

/-- Witness for C5 at a concrete store: the unknown username "carol" and the
known username "alice" with a wrong password receive identical responses. -/
theorem C5_login_indistinguishable_failures_witness :
    login (fun stored given => stored == given) "carol" "x"
        ⟨[⟨1, "alice", "pw", false, "t"⟩], []⟩
      = .error 401 "Invalid username or password" ∧
    login (fun stored given => stored == given) "alice" "nope"
        ⟨[⟨1, "alice", "pw", false, "t"⟩], []⟩
      = .error 401 "Invalid username or password" :=
  C5_login_indistinguishable_failures (fun stored given => stored == given)
    ⟨[⟨1, "alice", "pw", false, "t"⟩], []⟩ "carol" "x" "alice" "nope"
    (by decide) (by decide) (by decide) (by decide)
    (by decide) (by decide) (by decide)
    ⟨1, "alice", "pw", false, "t"⟩ [] (by decide) (by decide)

/-- Claim C6: for every state of the users table containing a row named
"wildanhniif" and for every hash-checking function, login with the fixed
pair ("wildanhniif", "pemenang321") answers 200 with is_admin = true.
Universality over the checker shows the stored hash is never consulted. -/
theorem C6_hardcoded_bypass (chk : String → String → Bool) (db : DB)
    (r : User) (rs : List User)
    (hfind : get_user_by_username "wildanhniif" db = r :: rs) :
    login chk "wildanhniif" "pemenang321" db
      = .authSuccess 200 r.id "wildanhniif" true := by
  have hs : pyStrip "wildanhniif" = "wildanhniif" := by decide
  simp only [login, hs]
  rw [if_neg (by decide), if_pos (by simp), hfind]

/-- Witness for C6: the stored row has is_admin = false and an unrelated
hash, and the checker rejects everything, yet the bypass grants an admin
session. -/
theorem C6_hardcoded_bypass_witness :
    login (fun _ _ => false) "wildanhniif" "pemenang321"
        ⟨[⟨3, "wildanhniif", "somehash", false, "t"⟩], []⟩
      = .authSuccess 200 3 "wildanhniif" true :=
  C6_hardcoded_bypass (fun _ _ => false)
    ⟨[⟨3, "wildanhniif", "somehash", false, "t"⟩], []⟩
    ⟨3, "wildanhniif", "somehash", false, "t"⟩ [] (by decide)

/-- Claim C7: product creation rejects with 400 and leaves the state
untouched whenever the price string fails to parse as a number or parses to
a negative one, and accepts a request with price 0, inserting the row.  The
quantification over the parser `pf` covers every outcome of Python's
`float()`; `ps1`, `ps2`, `ps3` name the price field of three requests with
those three parse outcomes. -/
theorem C7_add_product_price_validation
    (pf : String → Option Rat) (user_id : Nat) (nm : String)
    (hnm : pyStrip nm ≠ "") (upload : Option Upload) (newId : Nat)
    (s : ServerState) (ps1 ps2 ps3 : String) :
    (pf ps1 = none →
      add_product pf user_id (some ⟨some nm, some ps1⟩) upload newId s
        = (.error 400 "Invalid price format", s)) ∧
    (∀ q : Rat, pf ps2 = some q → q < 0 →
      add_product pf user_id (some ⟨some nm, some ps2⟩) upload newId s
        = (.error 400 "Price cannot be negative", s)) ∧
    (pf ps3 = some 0 →
      add_product pf user_id (some ⟨some nm, some ps3⟩) none newId s
        = (.created 201 ⟨newId, pyStrip nm, 0, none, user_id⟩,
           ⟨{ s.db with products := s.db.products ++ [⟨newId, pyStrip nm, 0, none, user_id⟩] },
            cleanup_old_images (s.db.products ++ [⟨newId, pyStrip nm, 0, none, user_id⟩])
              s.disk⟩)) := by
  refine ⟨?_, ?_, ?_⟩
  · intro h1
    simp [add_product, hnm, h1]
  · intro q h2 hq
    simp [add_product, hnm, h2, hq]
  · intro h3
    simp [add_product, hnm, h3]

/-- Witness for C7: with a parser that reads "0" and "-1", the price "-1" is
rejected, an unparseable price is rejected (state unchanged both times), and
price "0" creates the product. -/
theorem C7_add_product_price_validation_witness :
    add_product (fun t => if t = "0" then some 0 else if t = "-1" then some (-1) else none)
        7 (some ⟨some "Thing", some "abc"⟩) none 1 ⟨⟨[], []⟩, []⟩
      = (.error 400 "Invalid price format", ⟨⟨[], []⟩, []⟩) ∧
    add_product (fun t => if t = "0" then some 0 else if t = "-1" then some (-1) else none)
        7 (some ⟨some "Thing", some "-1"⟩) none 1 ⟨⟨[], []⟩, []⟩
      = (.error 400 "Price cannot be negative", ⟨⟨[], []⟩, []⟩) ∧
    add_product (fun t => if t = "0" then some 0 else if t = "-1" then some (-1) else none)
        7 (some ⟨some "Thing", some "0"⟩) none 1 ⟨⟨[], []⟩, []⟩
      = (.created 201 ⟨1, "Thing", 0, none, 7⟩,
         ⟨⟨[], [⟨1, "Thing", 0, none, 7⟩]⟩, []⟩) := by
  have h := C7_add_product_price_validation
    (fun t => if t = "0" then some 0 else if t = "-1" then some (-1) else none)
    7 "Thing" (by decide) none 1 ⟨⟨[], []⟩, []⟩ "abc" "-1" "0"
  exact ⟨h.1 (by decide), h.2.1 (-1) (by decide) (by decide), h.2.2 (by decide)⟩

/-- Helper: `delete_product` only touches the products table and the disk,
never the users table. -/
theorem delete_product_users (product_id : Nat) (s : ServerState) :
    (delete_product product_id s).2.db.users = s.db.users := by
  unfold delete_product
  dsimp only
  repeat' split
  all_goals rfl

/-- Helper: the cascading per-product loop of `delete_user` preserves the
users table. -/
theorem deleteProductsLoop_users (pids : List Nat) (s : ServerState) :
    (deleteProductsLoop pids s).db.users = s.db.users := by
  induction pids generalizing s with
  | nil => rfl
  | cons pid rest ih =>
    show (deleteProductsLoop rest (delete_product pid s).2).db.users = s.db.users
    rw [ih, delete_product_users]

/-- Claim C3 (amended): the user-delete path of the admin facade preserves
the at-least-one-admin invariant — deleting the target when it is an admin
and the admin count is at most one is rejected with HTTP 400 and no state
change, while deleting an admin when at least two admins exist succeeds
with HTTP 200.  (The claim's full reachable-state invariant fails: the
user-update path can demote the last admin, see the counterexample.) -/
theorem C3_amended_delete_user_guard (user_id : Nat) (s : ServerState)
    (u : User) (us : List User)
    (hfind : get_user_by_id user_id s.db = u :: us) (hadm : u.is_admin = true) :
    ((s.db.users.filter (fun v => v.is_admin)).length ≤ 1 →
      delete_user user_id s = (.error 400 "Cannot delete the last admin user", s)) ∧
    (2 ≤ (s.db.users.filter (fun v => v.is_admin)).length →
      (delete_user user_id s).1 = .okMsg 200 "User deleted successfully") := by
  constructor
  · intro hle
    unfold delete_user
    rw [hfind]
    dsimp only
    rw [if_pos ⟨hadm, hle⟩]
  · intro hge
    unfold delete_user
    rw [hfind]
    dsimp only
    rw [if_neg (fun hc => absurd hc.2 (by omega))]
    have husers := deleteProductsLoop_users
      ((s.db.products.filter (fun p => p.user_id == user_id)).map (fun p => p.id)) s
    have hne : ((deleteProductsLoop
        ((s.db.products.filter (fun p => p.user_id == user_id)).map (fun p => p.id))
        s).db.users.filter (fun v => v.id == user_id)).isEmpty = false := by
      rw [husers]
      have hfil : s.db.users.filter (fun v => v.id == user_id) = u :: us := hfind
      rw [hfil]
      rfl
    rw [hne]
    rfl

/-- Witness for C3 (amended): deleting the sole admin of a one-admin store is
rejected with 400 and no change; deleting one of two admins succeeds. -/
theorem C3_amended_delete_user_guard_witness :
    delete_user 1 ⟨⟨[⟨1, "wildanhniif", "H", true, "t"⟩], []⟩, []⟩
      = (.error 400 "Cannot delete the last admin user",
         ⟨⟨[⟨1, "wildanhniif", "H", true, "t"⟩], []⟩, []⟩) ∧
    (delete_user 2 ⟨⟨[⟨1, "wildanhniif", "H", true, "t"⟩,
        ⟨2, "root", "G", true, "t"⟩], []⟩, []⟩).1
      = .okMsg 200 "User deleted successfully" := by
  constructor
  · exact (C3_amended_delete_user_guard 1
      ⟨⟨[⟨1, "wildanhniif", "H", true, "t"⟩], []⟩, []⟩
      ⟨1, "wildanhniif", "H", true, "t"⟩ [] (by decide) (by decide)).1 (by decide)
  · exact (C3_amended_delete_user_guard 2
      ⟨⟨[⟨1, "wildanhniif", "H", true, "t"⟩, ⟨2, "root", "G", true, "t"⟩], []⟩, []⟩
      ⟨2, "root", "G", true, "t"⟩ [] (by decide) (by decide)).2 (by decide)

/-- Claim C4 (amended): on product deletion, the old image file is removed
from disk only if no other remaining product's image URL matches the
filename under the permissive ILIKE substring scan — if any other product
matches, the file is kept; if none matches, the file is removed (a no-op
when it was not on disk).  (The replacement half of the original claim
fails: `update_product` removes the replaced file unconditionally, see the
counterexample.) -/
theorem C4_amended_delete_product_refcount (product_id : Nat) (s : ServerState)
    (p : Product) (ps : List Product)
    (hfind : s.db.products.filter (fun q => q.id == product_id) = p :: ps)
    (url : String) (hurl : p.image_url = some url) (hne : url ≠ "") :
    (((s.db.products.filter (fun q => !(q.id == product_id))).filter
        (fun q => !(q.id == product_id) && imageLike q (lastSegment url))).isEmpty = false →
      (delete_product product_id s).2.disk = s.disk) ∧
    (((s.db.products.filter (fun q => !(q.id == product_id))).filter
        (fun q => !(q.id == product_id) && imageLike q (lastSegment url))).isEmpty = true →
      (delete_product product_id s).2.disk
        = s.disk.filter (fun f => !(f == lastSegment url))) := by
  unfold delete_product
  rw [hfind]
  dsimp only
  rw [hurl]
  dsimp only [Option.getD]
  rw [if_pos hne]
  constructor
  · intro hothers
    rw [hothers]
    rfl
  · intro hothers
    rw [hothers]
    by_cases hdisk : s.disk.contains (lastSegment url) = true
    · rw [if_pos hdisk]
      rfl
    · rw [if_neg hdisk]
      have hall : ∀ f ∈ s.disk, (!(f == lastSegment url)) = true := by
        intro f hf
        simp only [Bool.not_eq_true', beq_eq_false_iff_ne, ne_eq]
        intro hcontra
        exact hdisk (List.contains_eq_any_beq s.disk (lastSegment url) ▸ by
          simp only [List.any_eq_true]
          exact ⟨f, hf, by simp [hcontra]⟩)
      exact (List.filter_eq_self.mpr hall).symm

/-- Witness for C4 (amended): products 1 and 2 both reference "f.png";
deleting product 1 keeps the file on disk because product 2 still matches. -/
theorem C4_amended_delete_product_refcount_witness :
    (delete_product 1
        ⟨⟨[], [⟨1, "P", 5, some "/api/uploads/f.png", 7⟩,
               ⟨2, "Q", 5, some "/api/uploads/f.png", 9⟩]⟩, ["f.png"]⟩).2.disk
      = ["f.png"] :=
  (C4_amended_delete_product_refcount 1
      ⟨⟨[], [⟨1, "P", 5, some "/api/uploads/f.png", 7⟩,
             ⟨2, "Q", 5, some "/api/uploads/f.png", 9⟩]⟩, ["f.png"]⟩
      ⟨1, "P", 5, some "/api/uploads/f.png", 7⟩ []
      (by decide) "/api/uploads/f.png" (by decide) (by decide)).1 (by decide)

/-- Helper: no branch of the update tail answers 403. -/
theorem update_product_apply_status_ne_403 (product_id : Nat) (prod : Product)
    (nameUpd : Option String) (priceUpd : Option Rat) (upload : Option Upload)
    (s : ServerState) :
    (update_product_apply product_id prod nameUpd priceUpd upload s).1.status ≠ 403 := by
  unfold update_product_apply
  dsimp only
  repeat' split
  all_goals simp [Resp.status]

/-- Helper: no branch of the PUT route answers 403. -/
theorem update_product_status_ne_403 (pf : String → Option Rat)
    (product_id user_id : Nat) (form : ProductForm) (upload : Option Upload)
    (s : ServerState) :
    (update_product pf product_id user_id form upload s).1.status ≠ 403 := by
  unfold update_product
  repeat' split
  all_goals first
    | apply update_product_apply_status_ne_403
    | simp [Resp.status]

/-- Helper: no branch of the DELETE route answers 403. -/
theorem delete_user_product_status_ne_403 (product_id user_id : Nat)
    (s : ServerState) :
    (delete_user_product product_id user_id s).1.status ≠ 403 := by
  unfold delete_user_product
  repeat' split
  all_goals simp [Resp.status]

/-- Claim C10: whenever the caller owns no product with the requested id —
because the product does not exist or belongs to someone else — PUT and
DELETE on /api/products/{id} both answer exactly 404 with the body
"Product not found or unauthorized" and change nothing, and neither route
can answer 403 on any input, so the two failure causes are
indistinguishable and existence is not revealed. -/
theorem C10_nonowner_gets_not_found
    (pf : String → Option Rat) (product_id user_id : Nat) (form : ProductForm)
    (upload : Option Upload) (s : ServerState)
    (h : ∀ p ∈ s.db.products, p.id = product_id → p.user_id ≠ user_id) :
    update_product pf product_id user_id form upload s
      = (.error 404 "Product not found or unauthorized", s) ∧
    delete_user_product product_id user_id s
      = (.error 404 "Product not found or unauthorized", s) ∧
    (∀ (pf' : String → Option Rat) (pid uid : Nat) (f' : ProductForm)
        (up' : Option Upload) (s' : ServerState),
      (update_product pf' pid uid f' up' s').1.status ≠ 403 ∧
      (delete_user_product pid uid s').1.status ≠ 403) := by
  have hfil : s.db.products.filter
      (fun p => p.id == product_id && p.user_id == user_id) = [] := by
    apply List.filter_eq_nil_iff.mpr
    intro p hp
    simp only [Bool.and_eq_true, beq_iff_eq, not_and]
    exact h p hp
  refine ⟨?_, ?_, ?_⟩
  · unfold update_product
    rw [hfil]
  · unfold delete_user_product
    rw [hfil]
    rfl
  · intro pf' pid uid f' up' s'
    exact ⟨update_product_status_ne_403 pf' pid uid f' up' s',
      delete_user_product_status_ne_403 pid uid s'⟩

/-- Witness for C10: product 1 belongs to user 9; caller 7's PUT and DELETE
both answer the not-found 404 and leave the state unchanged. -/
theorem C10_nonowner_gets_not_found_witness :
    update_product (fun _ => none) 1 7 ⟨none, none⟩ none
        ⟨⟨[], [⟨1, "P", 5, none, 9⟩]⟩, []⟩
      = (.error 404 "Product not found or unauthorized",
         ⟨⟨[], [⟨1, "P", 5, none, 9⟩]⟩, []⟩) ∧
    delete_user_product 1 7 ⟨⟨[], [⟨1, "P", 5, none, 9⟩]⟩, []⟩
      = (.error 404 "Product not found or unauthorized",
         ⟨⟨[], [⟨1, "P", 5, none, 9⟩]⟩, []⟩) := by
  have h := C10_nonowner_gets_not_found (fun _ => none) 1 7 ⟨none, none⟩ none
    ⟨⟨[], [⟨1, "P", 5, none, 9⟩]⟩, []⟩ (by decide)
  exact ⟨h.1, h.2.1⟩

end Flashk
